import Mathlib

/-
Verification of the resource lifecycle job (src/job.py).

The job parses a multi-document YAML manifest, creates each resource in a
Kubernetes namespace while recording a ledger of created resources, waits for
the first tracked Deployment to become ready via a watch stream, sleeps for a
fixed period, and finally deletes every tracked resource in reverse creation
order.  The cluster is modelled as an oracle supplying the result of each API
call, indexed by the order in which the calls are issued.
-/

namespace Job

/-- A ledger entry: the kind and name of a resource tracked for deletion
(`created_resources_info` holds dicts with keys kind and name). -/
structure TrackedResource where
  kind : String
  name : String
deriving DecidableEq, Repr

/-- A parsed manifest document.  `kind` models `manifest.get('kind')` and
`name` models `manifest.get('metadata', \x7b\x7d).get('name')`; `none` means the
field is absent. -/
structure Manifest where
  kind : Option String
  name : Option String
deriving DecidableEq, Repr

/-- Python truthiness of an optional string: `None` and the empty string are
falsy (`if not kind or not name`). -/
def truthyStr : Option String → Bool
  | none => false
  | some s => s ≠ ""

/-- What `utils.create_from_dict` returns on success: either a single object or
a list of objects.  Each object is reduced to its identity
(`kind`, `metadata.name`); `none` models an object on which the
`hasattr` checks of job.py fail (identity fields missing). -/
inductive ObjOrList where
  | single (ident : Option TrackedResource)
  | objList (items : List (Option TrackedResource))
deriving DecidableEq, Repr

/-- The cluster's response to one create call: success, an `ApiException` with
an HTTP status (409 is Conflict), or any other exception. -/
inductive CreateResult where
  | ok (r : ObjOrList)
  | apiErr (status : Nat)
  | otherErr
deriving DecidableEq, Repr

/-- The ledger entries appended for one create call, or `none` when the
exception is re-raised (fatal).  Mirrors the inner try/except of
`create_resources_from_yaml`:
  - a single object with identity appends that identity; without identity the
    code falls back to the descriptor's kind/name;
  - a list appends the identity of each item that has one, and nothing for an
    item without one;
  - status 409 (Conflict) appends the descriptor's kind/name;
  - any other `ApiException` or exception re-raises. -/
def createStep (desc : TrackedResource) : CreateResult → Option (List TrackedResource)
  | .ok (.single i) => some [i.getD desc]
  | .ok (.objList items) => some (items.filterMap id)
  | .apiErr s => if s = 409 then some [desc] else none
  | .otherErr => none

/-- State of the Create phase: the ledger (`created_resources_info`), the
create requests issued so far (by descriptor identity), and whether a fatal
exception has been raised. -/
structure CreateState where
  ledger : List TrackedResource
  calls : List TrackedResource
  fatal : Bool
deriving DecidableEq, Repr

/-- The manifest loop of `create_resources_from_yaml`: skip empty documents and
documents missing kind or name; otherwise issue the create call (its result is
`resp i` where `i` counts calls issued) and handle the outcome.  A fatal
outcome stops the loop at once, leaving the ledger as populated so far. -/
def createLoop (resp : Nat → CreateResult) : List (Option Manifest) → Nat → CreateState → CreateState
  | [], _, st => st
  | none :: rest, i, st => createLoop resp rest i st
  | some m :: rest, i, st =>
    if truthyStr m.kind && truthyStr m.name then
      match createStep ⟨m.kind.getD "", m.name.getD ""⟩ (resp i) with
      | some entries =>
          createLoop resp rest (i + 1)
            ⟨st.ledger ++ entries, st.calls ++ [⟨m.kind.getD "", m.name.getD ""⟩], st.fatal⟩
      | none => ⟨st.ledger, st.calls ++ [⟨m.kind.getD "", m.name.getD ""⟩], true⟩
    else
      createLoop resp rest i st

/-- Where the manifests come from: the file may be absent (`FileNotFoundError`),
the stream may fail to parse (`yaml.YAMLError` raised while materialising
`list(yaml.safe_load_all(f))`, before any create call), or it yields a list of
documents (`none` models an empty/falsy document). -/
inductive ManifestSource where
  | fileNotFound
  | yamlError
  | docs (ds : List (Option Manifest))
deriving Repr

/-- The Create phase.  Both error sources re-raise before the loop runs, so
they are fatal with an empty ledger and no create call issued. -/
def create_resources_from_yaml (src : ManifestSource) (resp : Nat → CreateResult) : CreateState :=
  match src with
  | .fileNotFound => ⟨[], [], true⟩
  | .yamlError => ⟨[], [], true⟩
  | .docs ds => createLoop resp ds 0 ⟨[], [], false⟩

/-- The status sub-object of a watched Deployment event. -/
structure DeploymentStatus where
  ready_replicas : Option Int
  observed_generation : Option Int
deriving DecidableEq, Repr

/-- The spec sub-object of a watched Deployment event. -/
structure DeploymentSpec where
  replicas : Option Int
deriving DecidableEq, Repr

/-- A Deployment object as seen in a watch event: `status` and `spec` may be
absent (`None`); `generation` models `metadata.generation`. -/
structure Deployment where
  status : Option DeploymentStatus
  spec : Option DeploymentSpec
  generation : Option Int
deriving DecidableEq, Repr

/-- The readiness condition of `wait_for_deployment_ready`:
`deployment.status and deployment.status.ready_replicas == deployment.spec.replicas
and deployment.metadata.generation == deployment.status.observed_generation`.
`none` models an `AttributeError` raised during evaluation (accessing
`.replicas` on an absent spec); a falsy `status` short-circuits to not-ready
without touching `spec`. -/
def readyCheck (d : Deployment) : Option Bool :=
  match d.status with
  | none => some false
  | some st =>
    match d.spec with
    | none => none
    | some sp => some ((st.ready_replicas == sp.replicas) && (d.generation == st.observed_generation))

/-- One item of the watch stream: an event with a type and an object, or a
transport-level error raised by the stream itself. -/
inductive WatchItem where
  | ev (type : String) (obj : Deployment)
  | streamError
deriving DecidableEq, Repr

/-- How the Wait phase ends.  Every constructor is a normal return of
`wait_for_deployment_ready`: exceptions are caught inside the function. -/
inductive WatchOutcome where
  | noDeployment
  | ready
  | timedOut
  | errored
deriving DecidableEq, Repr

/-- The event-type filter of the watch loop. -/
def isAddOrModified (t : String) : Bool := t == "ADDED" || t == "MODIFIED"

/-- The watch loop of `wait_for_deployment_ready` over a finite stream (the
stream is bounded by `timeout_seconds`; an exhausted stream is the timeout).
`last` is the Python local `deployment`, assigned only on ADDED/MODIFIED
events: a non-matching event before any assignment raises a `NameError` at the
status-print line, caught by the blanket `except Exception` (errored).  A fault
while evaluating the readiness condition is likewise caught (errored). -/
def watchLoop : Option Deployment → List WatchItem → WatchOutcome
  | _, [] => .timedOut
  | _, .streamError :: _ => .errored
  | last, .ev t obj :: rest =>
    if isAddOrModified t then
      match readyCheck obj with
      | none => .errored
      | some true => .ready
      | some false => watchLoop (some obj) rest
    else
      match last with
      | none => .errored
      | some d => watchLoop (some d) rest

/-- The first tracked resource of kind Deployment, if any. -/
def firstDeployment (ledger : List TrackedResource) : Option String :=
  (ledger.find? (fun r => r.kind == "Deployment")).map TrackedResource.name

/-- The Wait phase: return immediately when the ledger holds no Deployment,
otherwise run the watch loop on the event stream. -/
def wait_for_deployment_ready (ledger : List TrackedResource) (events : List WatchItem) : WatchOutcome :=
  match firstDeployment ledger with
  | none => .noDeployment
  | some _ => watchLoop none events

/-- One delete request as dispatched by `delete_created_resources`: the
resource identity plus the `V1DeleteOptions` fields. -/
structure DeleteCall where
  kind : String
  name : String
  propagation_policy : String
  grace_period_seconds : Nat
deriving DecidableEq, Repr

/-- The cluster's response to one delete call: acknowledged, or an
`ApiException` with an HTTP status (404 is NotFound). -/
inductive DeleteResult where
  | ack
  | apiErr (status : Nat)
deriving DecidableEq, Repr

/-- The kinds with a registered delete handler in job.py. -/
def supportedKind (k : String) : Bool := k == "Deployment" || k == "Service"

/-- The logged outcome for one ledger entry during deletion. -/
inductive DeleteOutcome where
  | initiated
  | skippedUnsupported
  | alreadyGone
  | errorLogged
deriving DecidableEq, Repr

/-- State of the Delete phase: the delete requests dispatched, in order, and
the per-resource log. -/
structure DeleteState where
  calls : List DeleteCall
  log : List (TrackedResource × DeleteOutcome)
deriving DecidableEq, Repr

/-- The delete request built for one tracked resource: foreground cascading
deletion with a five-second grace period. -/
def mkDeleteCall (r : TrackedResource) : DeleteCall :=
  ⟨r.kind, r.name, "Foreground", 5⟩

/-- The deletion loop: for each tracked resource of a supported kind dispatch
a delete request (its result is `resp i` where `i` counts requests issued);
404 is logged as already gone, any other `ApiException` is logged and the loop
continues; unsupported kinds are skipped with a warning.  No branch raises. -/
def deleteLoop (resp : Nat → DeleteResult) : List TrackedResource → Nat → DeleteState → DeleteState
  | [], _, st => st
  | r :: rest, i, st =>
    if supportedKind r.kind then
      deleteLoop resp rest (i + 1)
        ⟨st.calls ++ [mkDeleteCall r],
         st.log ++ [(r, match resp i with
           | .ack => .initiated
           | .apiErr s => if s = 404 then .alreadyGone else .errorLogged)]⟩
    else
      deleteLoop resp rest i ⟨st.calls, st.log ++ [(r, .skippedUnsupported)]⟩

/-- The Delete phase: traverse the ledger in reverse creation order. -/
def delete_created_resources (ledger : List TrackedResource) (resp : Nat → DeleteResult) : DeleteState :=
  deleteLoop resp ledger.reverse 0 ⟨[], []⟩

/-- Everything the environment supplies to one run: the manifest source, the
cluster's create responses, the watch stream, and the cluster's delete
responses. -/
structure RunInput where
  src : ManifestSource
  createResp : Nat → CreateResult
  events : List WatchItem
  deleteResp : Nat → DeleteResult

/-- The observable outcome of one run.  `none` fields mark phases never
reached. -/
structure RunResult where
  ledger : List TrackedResource
  waitOutcome : Option WatchOutcome
  heldSeconds : Option Nat
  deletion : Option DeleteState
  exitCode : Nat
deriving Repr

/-- The fixed hold duration (`WAIT_SECONDS`). -/
def WAIT_SECONDS : Nat := 60

/-- The orchestrator `main`: Create, then Wait, Hold and Delete.  The Wait and
Delete phases swallow their own errors, so the only exception reaching the
top-level handler comes from Create; it yields exit status 1 with no later
phase run.  Otherwise the run completes with exit status 0. -/
def main (inp : RunInput) : RunResult :=
  let cs := create_resources_from_yaml inp.src inp.createResp
  if cs.fatal then
    ⟨cs.ledger, none, none, none, 1⟩
  else
    ⟨cs.ledger,
     some (wait_for_deployment_ready cs.ledger inp.events),
     some WAIT_SECONDS,
     some (delete_created_resources cs.ledger inp.deleteResp),
     0⟩

/-! Concrete fixtures used by witnesses and counterexamples. -/

/-- A well-formed manifest document for a Deployment named app. -/
def mApp : Manifest := ⟨some "Deployment", some "app"⟩

/-- The descriptor identity of `mApp`. -/
def descApp : TrackedResource := ⟨"Deployment", "app"⟩

/-- Create responses for submitting the same descriptor twice: the first call
succeeds and returns the object, the second fails with Conflict. -/
def respC1 : Nat → CreateResult :=
  fun i => if i = 0 then .ok (.single (some descApp)) else .apiErr 409

/-- C1, counterexample: submitting the same descriptor twice in one run, the
first create succeeding (server echoing the identity) and the second failing
with Conflict, produces no fatal error but TWO ledger entries for the
descriptor, not exactly one: both the success path and the Conflict path
append. -/
theorem C1_counterexample :
    (create_resources_from_yaml (.docs [some mApp, some mApp]) respC1).fatal = false ∧
    (create_resources_from_yaml (.docs [some mApp, some mApp]) respC1).ledger
      = [descApp, descApp] ∧
    (create_resources_from_yaml (.docs [some mApp, some mApp]) respC1).ledger.count descApp ≠ 1 := by
  refine ⟨rfl, rfl, ?_⟩
  decide

/-- C1, amended: for every run in which the same valid resource descriptor is
submitted twice, the first create succeeding (returning an object carrying the
descriptor's identity) and the second failing with Conflict, Create raises no
fatal error on the second attempt and produces exactly two ledger entries for
that descriptor: one from the successful create and one appended on the
Conflict path. -/
theorem C1_amended (k n : String) (resp : Nat → CreateResult)
    (hk0 : k ≠ "") (hn0 : n ≠ "")
    (h0 : resp 0 = .ok (.single (some ⟨k, n⟩)))
    (h1 : resp 1 = .apiErr 409) :
    create_resources_from_yaml (.docs [some ⟨some k, some n⟩, some ⟨some k, some n⟩]) resp
      = ⟨[⟨k, n⟩, ⟨k, n⟩], [⟨k, n⟩, ⟨k, n⟩], false⟩ := by
  simp [create_resources_from_yaml, createLoop, truthyStr, hk0, hn0, h0, h1, createStep]

/-- C1, witness for the amended claim at a concrete descriptor and response
oracle. -/
theorem C1_amended_witness :
    create_resources_from_yaml (.docs [some ⟨some "Deployment", some "app"⟩, some ⟨some "Deployment", some "app"⟩]) respC1
      = ⟨[⟨"Deployment", "app"⟩, ⟨"Deployment", "app"⟩], [⟨"Deployment", "app"⟩, ⟨"Deployment", "app"⟩], false⟩ :=
  C1_amended "Deployment" "app" respC1 (by decide) (by decide) rfl rfl

/-- C6: when the manifest file is absent or the stream is malformed, the
Create phase is fatal with no create call issued, and the run exits with
status 1 without the Wait or Delete phase running — no cluster mutation
occurs. -/
theorem C6_manifest_errors_fatal_before_any_create (inp : RunInput)
    (h : inp.src = .fileNotFound ∨ inp.src = .yamlError) :
    (create_resources_from_yaml inp.src inp.createResp).fatal = true ∧
    (create_resources_from_yaml inp.src inp.createResp).calls = [] ∧
    (main inp).exitCode = 1 ∧ (main inp).waitOutcome = none ∧ (main inp).deletion = none := by
  rcases h with h | h <;> simp [main, create_resources_from_yaml, h]

/-- A run whose manifest file is absent. -/
def inpFNF : RunInput := ⟨.fileNotFound, fun _ => .otherErr, [], fun _ => .ack⟩

/-- C6, witness at a concrete run input with an absent manifest file. -/
theorem C6_witness :
    (create_resources_from_yaml inpFNF.src inpFNF.createResp).fatal = true ∧
    (create_resources_from_yaml inpFNF.src inpFNF.createResp).calls = [] ∧
    (main inpFNF).exitCode = 1 ∧ (main inpFNF).waitOutcome = none ∧ (main inpFNF).deletion = none :=
  C6_manifest_errors_fatal_before_any_create inpFNF (Or.inl rfl)

/-- C9: when a successful create returns an object without identity fields,
the Creator is asymmetric: a single returned object falls back to appending
the original descriptor's kind and name, while an identity-less item inside a
returned list appends nothing, leaving that resource untracked. -/
theorem C9_identity_fallback_asymmetry :
    (∀ d : TrackedResource, createStep d (.ok (.single none)) = some [d]) ∧
    (∀ d : TrackedResource, createStep d (.ok (.objList [none])) = some []) ∧
    (create_resources_from_yaml (.docs [some mApp]) (fun _ => .ok (.single none))).ledger
      = [descApp] ∧
    (create_resources_from_yaml (.docs [some mApp]) (fun _ => .ok (.objList [none]))).ledger
      = [] :=
  ⟨fun _ => rfl, fun _ => rfl, rfl, rfl⟩

/-- C10: an event object with no status is never judged ready, regardless of
its other fields, and evaluating the readiness condition on it does not fault
— the truthiness check short-circuits — so the watch loop simply continues. -/
theorem C10_missing_status_never_ready (d : Deployment) (last : Option Deployment)
    (t : String) (rest : List WatchItem) (hs : d.status = none) :
    readyCheck d = some false ∧
    (isAddOrModified t = true → watchLoop last (.ev t d :: rest) = watchLoop (some d) rest) := by
  constructor
  · simp [readyCheck, hs]
  · intro ht
    simp [watchLoop, ht, readyCheck, hs]

/-- A Deployment event object with neither status nor spec. -/
def depNoStatus : Deployment := ⟨none, none, some 1⟩

/-- C10, witness at a concrete status-less object inside a MODIFIED event. -/
theorem C10_witness :
    readyCheck depNoStatus = some false ∧
    watchLoop none (WatchItem.ev "MODIFIED" depNoStatus :: []) = watchLoop (some depNoStatus) [] :=
  ⟨(C10_missing_status_never_ready depNoStatus none "MODIFIED" [] rfl).1,
   (C10_missing_status_never_ready depNoStatus none "MODIFIED" [] rfl).2 rfl⟩

/-- Helper: the watch loop returns ready at the first ADDED or MODIFIED event
whose object satisfies the readiness condition, whatever the tail of the
stream holds. -/
theorem watchLoop_first_ready (last : Option Deployment) (pre : List Deployment)
    (d : Deployment) (rest : List WatchItem)
    (hpre : ∀ x ∈ pre, readyCheck x = some false)
    (hd : readyCheck d = some true) :
    watchLoop last (pre.map (fun x => WatchItem.ev "MODIFIED" x) ++ WatchItem.ev "MODIFIED" d :: rest) = .ready := by
  induction pre generalizing last with
  | nil => simp [watchLoop, isAddOrModified, hd]
  | cons x xs ih =>
      have hx : readyCheck x = some false := hpre x (by simp)
      simp only [List.map_cons, List.cons_append, watchLoop, isAddOrModified]
      simp only [hx]
      simpa using ih (some x) (fun y hy => hpre y (by simp [hy]))

/-- A Deployment event object that is not yet ready: the observed generation
lags behind the metadata generation. -/
def dep1 : Deployment := ⟨some ⟨some 3, some 1⟩, some ⟨some 3⟩, some 2⟩

/-- The same event object with the observed generation caught up: ready. -/
def dep2 : Deployment := ⟨some ⟨some 3, some 2⟩, some ⟨some 3⟩, some 2⟩

/-- A not-yet-ready event object: only one of three replicas ready. -/
def dep0 : Deployment := ⟨some ⟨some 1, some 2⟩, some ⟨some 3⟩, some 2⟩

/-- C2: on an object with status and spec present, the readiness condition
holds exactly when status.readyReplicas equals spec.replicas and
metadata.generation equals status.observedGeneration; the concrete event with
readyReplicas 3, replicas 3, generation 2, observedGeneration 1 is not ready
while the same event with observedGeneration 2 is ready; and the first
ADDED/MODIFIED event satisfying the condition terminates the watch with the
ready outcome, whatever follows in the stream. -/
theorem C2_readiness_predicate (ledger : List TrackedResource) (nm : String)
    (pre : List Deployment) (d : Deployment) (rest : List WatchItem)
    (hled : firstDeployment ledger = some nm)
    (hpre : ∀ x ∈ pre, readyCheck x = some false)
    (hd : readyCheck d = some true) :
    (∀ (st : DeploymentStatus) (sp : DeploymentSpec) (g : Option Int),
      readyCheck ⟨some st, some sp, g⟩
        = some ((st.ready_replicas == sp.replicas) && (g == st.observed_generation))) ∧
    readyCheck dep1 = some false ∧
    readyCheck dep2 = some true ∧
    wait_for_deployment_ready ledger
      (pre.map (fun x => WatchItem.ev "MODIFIED" x) ++ WatchItem.ev "MODIFIED" d :: rest) = .ready := by
  refine ⟨fun st sp g => rfl, rfl, rfl, ?_⟩
  simp only [wait_for_deployment_ready, hled]
  exact watchLoop_first_ready none pre d rest hpre hd

/-- C2, witness: a ledger holding one Deployment, one not-ready MODIFIED event
followed by a ready one, ends the Wait phase with the ready outcome. -/
theorem C2_witness :
    (∀ (st : DeploymentStatus) (sp : DeploymentSpec) (g : Option Int),
      readyCheck ⟨some st, some sp, g⟩
        = some ((st.ready_replicas == sp.replicas) && (g == st.observed_generation))) ∧
    readyCheck dep1 = some false ∧
    readyCheck dep2 = some true ∧
    wait_for_deployment_ready [descApp]
      ([dep0].map (fun x => WatchItem.ev "MODIFIED" x) ++ WatchItem.ev "MODIFIED" dep2 :: []) = .ready :=
  C2_readiness_predicate [descApp] "app" [dep0] dep2 [] rfl
    (by intro x hx; simp only [List.mem_singleton] at hx; subst hx; rfl) rfl

/-- Helper: the delete requests dispatched by the deletion loop are exactly
one per supported-kind entry, in traversal order, independent of the
responses. -/
theorem deleteLoop_calls (resp : Nat → DeleteResult) (l : List TrackedResource)
    (i : Nat) (st : DeleteState) :
    (deleteLoop resp l i st).calls
      = st.calls ++ (l.filter (fun r => supportedKind r.kind)).map mkDeleteCall := by
  induction l generalizing i st with
  | nil => simp [deleteLoop]
  | cons r rest ih =>
      cases h : supportedKind r.kind with
      | true => simp [deleteLoop, h, ih]
      | false => simp [deleteLoop, h, ih]

/-- Helper: the deletion loop logs an outcome for every traversed entry and
never stops early. -/
theorem deleteLoop_log_length (resp : Nat → DeleteResult) (l : List TrackedResource)
    (i : Nat) (st : DeleteState) :
    (deleteLoop resp l i st).log.length = st.log.length + l.length := by
  induction l generalizing i st with
  | nil => simp [deleteLoop]
  | cons r rest ih =>
      cases h : supportedKind r.kind with
      | true => simp [deleteLoop, h, ih]; omega
      | false => simp [deleteLoop, h, ih]; omega

/-- The first, second and third resources of the spec's three-entry ledger
example, in creation order. -/
def rA : TrackedResource := ⟨"Deployment", "res-a"⟩

/-- Second entry of the example ledger. -/
def rB : TrackedResource := ⟨"Service", "res-b"⟩

/-- Third entry of the example ledger. -/
def rC : TrackedResource := ⟨"Service", "res-c"⟩

/-- Delete responses that acknowledge every request. -/
def respAck : Nat → DeleteResult := fun _ => .ack

/-- C3: the Deleter dispatches its delete requests in exactly the reverse of
the ledger's append order (one request per entry with a registered handler),
every request carries foreground cascading deletion and a five-second grace
period, and for the ledger A, B, C the requests are dispatched in order
C, B, A. -/
theorem C3_reverse_deletion_order :
    (∀ (ledger : List TrackedResource) (resp : Nat → DeleteResult),
      (delete_created_resources ledger resp).calls
        = (ledger.reverse.filter (fun r => supportedKind r.kind)).map mkDeleteCall) ∧
    (∀ (ledger : List TrackedResource) (resp : Nat → DeleteResult) (c : DeleteCall),
      c ∈ (delete_created_resources ledger resp).calls →
      c.propagation_policy = "Foreground" ∧ c.grace_period_seconds = 5) ∧
    (delete_created_resources [rA, rB, rC] respAck).calls
      = [mkDeleteCall rC, mkDeleteCall rB, mkDeleteCall rA] := by
  refine ⟨?_, ?_, rfl⟩
  · intro ledger resp
    simpa using deleteLoop_calls resp ledger.reverse 0 ⟨[], []⟩
  · intro ledger resp c hc
    have h1 : (delete_created_resources ledger resp).calls
        = (ledger.reverse.filter (fun r => supportedKind r.kind)).map mkDeleteCall := by
      simpa using deleteLoop_calls resp ledger.reverse 0 ⟨[], []⟩
    rw [h1] at hc
    simp only [List.mem_map] at hc
    obtain ⟨r, _, hr⟩ := hc
    subst hr
    exact ⟨rfl, rfl⟩

/-- C3, witness: the dispatched request for a concrete tracked Deployment in a
singleton ledger uses foreground propagation and a five-second grace period. -/
theorem C3_witness :
    (mkDeleteCall rA).propagation_policy = "Foreground" ∧
    (mkDeleteCall rA).grace_period_seconds = 5 :=
  C3_reverse_deletion_order.2.1 [rA] respAck (mkDeleteCall rA) (by decide)

/-- Delete responses: the second dispatched request fails with a 500 error,
all others are acknowledged. -/
def respFail500 : Nat → DeleteResult := fun i => if i = 1 then .apiErr 500 else .ack

/-- Delete responses: the second dispatched request fails with 404 NotFound,
all others are acknowledged. -/
def respNF404 : Nat → DeleteResult := fun i => if i = 1 then .apiErr 404 else .ack

/-- C4: the set and order of delete requests is independent of the cluster's
responses (so every remaining resource is still attempted after any failure),
the phase logs an outcome for every ledger entry and completes without
raising, a non-NotFound failure on B still leaves A attempted, and a 404 is
logged as already gone (success) rather than an error. -/
theorem C4_best_effort_cleanup :
    (∀ (ledger : List TrackedResource) (resp resp2 : Nat → DeleteResult),
      (delete_created_resources ledger resp).calls
        = (delete_created_resources ledger resp2).calls) ∧
    (∀ (ledger : List TrackedResource) (resp : Nat → DeleteResult),
      (delete_created_resources ledger resp).log.length = ledger.length) ∧
    ((delete_created_resources [rA, rB, rC] respFail500).calls
        = [mkDeleteCall rC, mkDeleteCall rB, mkDeleteCall rA] ∧
     (delete_created_resources [rA, rB, rC] respFail500).log
        = [(rC, .initiated), (rB, .errorLogged), (rA, .initiated)]) ∧
    (delete_created_resources [rA, rB, rC] respNF404).log
        = [(rC, .initiated), (rB, .alreadyGone), (rA, .initiated)] := by
  refine ⟨?_, ?_, ⟨rfl, rfl⟩, rfl⟩
  · intro ledger resp resp2
    rw [delete_created_resources, delete_created_resources,
      deleteLoop_calls, deleteLoop_calls]
  · intro ledger resp
    rw [delete_created_resources, deleteLoop_log_length]
    simp

/-- Create responses in which every call succeeds and returns a list of two
identified objects, as `create_from_dict` can when one document expands into
several resources. -/
def respListTwo : Nat → CreateResult :=
  fun _ => .ok (.objList [some ⟨"Deployment", "a"⟩, some ⟨"Service", "b"⟩])

/-- C5, counterexample: a stream with a single manifest document whose create
call returns a list of two identified objects yields a ledger of length two,
exceeding the number of manifest documents. -/
theorem C5_counterexample :
    ¬ ((create_resources_from_yaml (.docs [some mApp]) respListTwo).ledger.length
        ≤ ([some mApp] : List (Option Manifest)).length) := by
  decide

/-- Upper bound on how many ledger entries one create response can
contribute: one for a single object or a Conflict, one per item for a list,
none for a fatal error. -/
def respEntryBound : CreateResult → Nat
  | .ok (.single _) => 1
  | .ok (.objList items) => items.length
  | .apiErr _ => 1
  | .otherErr => 0

/-- Helper: the entries appended for one create call never exceed the
response's entry bound. -/
theorem createStep_length_le (desc : TrackedResource) (r : CreateResult)
    (entries : List TrackedResource) (h : createStep desc r = some entries) :
    entries.length ≤ respEntryBound r := by
  cases r with
  | ok o =>
      cases o with
      | single i =>
          simp only [createStep, Option.some_inj] at h
          subst h
          simp [respEntryBound]
      | objList items =>
          simp only [createStep, Option.some_inj] at h
          subst h
          simpa [respEntryBound] using List.length_filterMap_le id items
  | apiErr s =>
      by_cases hs : s = 409
      · subst hs
        simp only [createStep, if_true] at h
        injection h with h
        subst h
        simp [respEntryBound]
      · simp [createStep, hs] at h
  | otherErr => simp [createStep] at h

/-- Helper: when every create response contributes at most one ledger entry,
the manifest loop grows the ledger by at most one entry per document. -/
theorem createLoop_ledger_length_le (resp : Nat → CreateResult)
    (h : ∀ i, respEntryBound (resp i) ≤ 1) (ds : List (Option Manifest)) :
    ∀ (i : Nat) (st : CreateState),
      (createLoop resp ds i st).ledger.length ≤ st.ledger.length + ds.length := by
  induction ds with
  | nil => intro i st; simp [createLoop]
  | cons d rest ih =>
      intro i st
      cases d with
      | none =>
          simp only [createLoop]
          exact le_trans (ih i st) (by simp)
      | some m =>
          simp only [createLoop]
          cases ht : (truthyStr m.kind && truthyStr m.name) with
          | false =>
              rw [if_neg (by simp [ht])]
              exact le_trans (ih i st) (by simp)
          | true =>
              rw [if_pos (by simp [ht])]
              cases hs : createStep ⟨m.kind.getD "", m.name.getD ""⟩ (resp i) with
              | none => simp
              | some entries =>
                  have hlen : entries.length ≤ 1 :=
                    le_trans (createStep_length_le _ _ _ hs) (h i)
                  refine le_trans (ih (i + 1) _) ?_
                  simp only [List.length_append, List.length_cons]
                  omega

/-- C5, amended: after the Create phase the ledger length is at most the
number of manifest documents, provided every create response contributes at
most one ledger entry (in particular whenever no successful create returns a
multi-item list); a list-valued create response can push the ledger past the
document count. -/
theorem C5_amended_ledger_bound (ds : List (Option Manifest)) (resp : Nat → CreateResult)
    (h : ∀ i, respEntryBound (resp i) ≤ 1) :
    (create_resources_from_yaml (.docs ds) resp).ledger.length ≤ ds.length := by
  simpa using createLoop_ledger_length_le resp h ds 0 ⟨[], [], false⟩

/-- Create responses in which every call succeeds with a single identified
object. -/
def respSingle : Nat → CreateResult := fun _ => .ok (.single (some descApp))

/-- C5, witness for the amended claim on a one-document stream with
single-object responses. -/
theorem C5_amended_witness :
    (∀ i, respEntryBound (respSingle i) ≤ 1) ∧
    (create_resources_from_yaml (.docs [some mApp]) respSingle).ledger.length
      ≤ ([some mApp] : List (Option Manifest)).length :=
  ⟨fun _ => Nat.le.refl,
   C5_amended_ledger_bound [some mApp] respSingle (fun _ => Nat.le.refl)⟩

/-- C7: whenever the Create phase is not fatal and the Wait phase ends in a
soft timeout or a swallowed transport error, the run still holds for the
configured duration, still runs the Delete phase on the ledger, and exits
with status zero. -/
theorem C7_soft_watch_failure_still_cleans_up (inp : RunInput)
    (hc : (create_resources_from_yaml inp.src inp.createResp).fatal = false)
    (hw : wait_for_deployment_ready (create_resources_from_yaml inp.src inp.createResp).ledger inp.events = .timedOut ∨
          wait_for_deployment_ready (create_resources_from_yaml inp.src inp.createResp).ledger inp.events = .errored) :
    (main inp).exitCode = 0 ∧
    (main inp).heldSeconds = some WAIT_SECONDS ∧
    (main inp).deletion
      = some (delete_created_resources (create_resources_from_yaml inp.src inp.createResp).ledger inp.deleteResp) ∧
    ((main inp).waitOutcome = some .timedOut ∨ (main inp).waitOutcome = some .errored) := by
  refine ⟨?_, ?_, ?_, ?_⟩ <;> simp [main, hc]
  rcases hw with hw | hw
  · exact Or.inl hw
  · exact Or.inr hw

/-- A run that creates one Deployment and then sees an empty watch stream:
the Wait phase times out softly. -/
def inpC7 : RunInput := ⟨.docs [some mApp], respSingle, [], fun _ => .ack⟩

/-- C7, witness at a concrete run whose watch stream is empty. -/
theorem C7_witness :
    (main inpC7).exitCode = 0 ∧
    (main inpC7).heldSeconds = some WAIT_SECONDS ∧
    (main inpC7).deletion
      = some (delete_created_resources (create_resources_from_yaml inpC7.src inpC7.createResp).ledger inpC7.deleteResp) ∧
    ((main inpC7).waitOutcome = some .timedOut ∨ (main inpC7).waitOutcome = some .errored) :=
  C7_soft_watch_failure_still_cleans_up inpC7 rfl (Or.inl rfl)

/-- Whether a create response makes the inner exception handler re-raise: any
`ApiException` whose status is not 409, and any other exception. -/
def fatalResp : CreateResult → Bool
  | .ok _ => false
  | .apiErr s => !(s == 409)
  | .otherErr => true

/-- Helper: a fatal create response yields no ledger entries, whatever the
descriptor. -/
theorem createStep_eq_none_of_fatal (desc : TrackedResource) (r : CreateResult)
    (h : fatalResp r = true) : createStep desc r = none := by
  cases r with
  | ok o => simp [fatalResp] at h
  | apiErr s =>
      have hs : s ≠ 409 := by simpa [fatalResp] using h
      simp [createStep, hs]
  | otherErr => rfl

/-- C8: when the create call for a document fails with a non-Conflict error,
the Create phase aborts at that document — the ledger stays exactly as
populated so far and no later document is processed — and a run whose Create
phase is fatal exits with status 1 without the Wait or Delete phase running,
its ledger being the partially populated one. -/
theorem C8_fatal_create_aborts (resp : Nat → CreateResult) (k n : String)
    (rest : List (Option Manifest)) (i : Nat) (st : CreateState)
    (hk0 : k ≠ "") (hn0 : n ≠ "") (hf : fatalResp (resp i) = true) :
    createLoop resp (some ⟨some k, some n⟩ :: rest) i st
      = ⟨st.ledger, st.calls ++ [⟨k, n⟩], true⟩ ∧
    (∀ inp : RunInput, (create_resources_from_yaml inp.src inp.createResp).fatal = true →
      (main inp).exitCode = 1 ∧ (main inp).deletion = none ∧ (main inp).waitOutcome = none ∧
      (main inp).ledger = (create_resources_from_yaml inp.src inp.createResp).ledger) := by
  constructor
  · have hstep : createStep ⟨k, n⟩ (resp i) = none :=
      createStep_eq_none_of_fatal ⟨k, n⟩ (resp i) hf
    simp [createLoop, truthyStr, hk0, hn0, hstep]
  · intro inp h
    refine ⟨?_, ?_, ?_, ?_⟩ <;> simp [main, h]

/-- Create responses in which every call fails with a 500 error. -/
def respErr : Nat → CreateResult := fun _ => .apiErr 500

/-- A run whose only create call fails with a 500 error. -/
def inpC8 : RunInput := ⟨.docs [some mApp], respErr, [], fun _ => .ack⟩

/-- C8, witness: the concrete fatal run aborts Create at once, exits with
status 1 and never reaches Wait or Delete. -/
theorem C8_witness :
    createLoop respErr [some ⟨some "Deployment", some "app"⟩] 0 ⟨[], [], false⟩
      = ⟨[], [⟨"Deployment", "app"⟩], true⟩ ∧
    ((main inpC8).exitCode = 1 ∧ (main inpC8).deletion = none ∧
     (main inpC8).waitOutcome = none ∧
     (main inpC8).ledger = (create_resources_from_yaml inpC8.src inpC8.createResp).ledger) := by
  have h := C8_fatal_create_aborts respErr "Deployment" "app" [] 0 ⟨[], [], false⟩
    (by decide) (by decide) rfl
  exact ⟨h.1, h.2 inpC8 rfl⟩

end Job
